import Mathlib

/-!
Shallow embedding of the CRM access-control and lifecycle core
(`app/models/user.py`, `app/models/customer.py`, `app/models/opportunity.py`,
`app/models/activity.py`, `app/models/audit.py`, `app/utils/access_control.py`,
`app/utils/query_filters.py`, `app/utils/decorators.py`).

Modelling conventions:
- SQLAlchemy rows become Lean structures holding the fields the verified code
  reads or writes; nullable columns become `Option`.
- `datetime.utcnow()` is passed in explicitly as an integer-valued instant
  (`now`); date subtraction `.days` becomes integer subtraction.
- `Numeric` money columns become `ℚ`; Python truthiness of a numeric value is
  `≠ 0`, of a string is `≠ ""`, of an `Option` is `isSome` plus the payload's
  own truthiness.
- The ambient `current_user` is threaded through as an explicit subject whose
  `is_authenticated` flag models flask-login's anonymous-user check.
- The organizational-unit table is modelled as the tree reachable through the
  `children` relationship; the working set of unit ids present in the database
  is an explicit parameter (`unit_db`).
-/

/-- Access levels from `AccessLevel` in `app/models/user.py`. -/
inductive AccessLevel where
  | EXECUTIVE
  | REGIONAL
  | BRANCH
  | INDIVIDUAL
deriving DecidableEq, Repr

/-- Numeric values of the access levels (`EXECUTIVE = 1`, ..., `INDIVIDUAL = 4`). -/
def AccessLevel.value : AccessLevel → Nat
  | .EXECUTIVE => 1
  | .REGIONAL => 2
  | .BRANCH => 3
  | .INDIVIDUAL => 4

/-- An organizational unit together with the subtree reachable through the
`children` backref of `OrganizationalUnit` (`app/models/user.py`).  The row id
is the first component; the children list is the second. -/
inductive OrgUnit where
  | node : Nat → List OrgUnit → OrgUnit

/-- The row id of an organizational unit. -/
def OrgUnit.key : OrgUnit → Nat
  | .node i _ => i

/-- The direct children of an organizational unit (the `children` backref). -/
def OrgUnit.children : OrgUnit → List OrgUnit
  | .node _ cs => cs

/-- `OrganizationalUnit.get_all_children` unrolled over a list of starting
units: for each unit in the list, the unit itself followed by its recursively
collected children, matching the `append`/`extend` order of the Python loop. -/
def getAllChildrenList : List OrgUnit → List OrgUnit
  | [] => []
  | .node i cs :: rest => .node i cs :: (getAllChildrenList cs ++ getAllChildrenList rest)

/-- `OrganizationalUnit.get_all_children` from `app/models/user.py`: all
transitive child units of `t`, depth-first, not including `t` itself. -/
def OrgUnit.get_all_children (t : OrgUnit) : List OrgUnit :=
  getAllChildrenList t.children

/-- All row ids occurring in a forest of units (each root included). -/
def subtreeIdsList : List OrgUnit → List Nat
  | [] => []
  | .node i cs :: rest => i :: (subtreeIdsList cs ++ subtreeIdsList rest)

/-- All row ids occurring in the subtree rooted at `t`, `t` included. -/
def OrgUnit.subtree_ids (t : OrgUnit) : List Nat :=
  t.key :: subtreeIdsList t.children

/-- Spec-side notion: `j` is the id of a strict descendant of `t` in the
organizational-unit tree (a node of some child's subtree). -/
def isDescendantOf (j : Nat) (t : OrgUnit) : Prop :=
  ∃ c ∈ t.children, j ∈ c.subtree_ids

instance (j : Nat) (t : OrgUnit) : Decidable (isDescendantOf j t) := by
  unfold isDescendantOf; infer_instance

/-- The authenticated subject: the fields of `User` the access-control code
reads, plus flask-login's `is_authenticated` flag (false for the anonymous
user). -/
structure Subject where
  id : Nat
  access_level : AccessLevel
  organizational_unit : OrgUnit
  is_authenticated : Bool

/-- Customer lifecycle stages from `CustomerStage` in `app/models/customer.py`. -/
inductive CustomerStage where
  | SUSPECT
  | PROSPECT
  | LEAD
  | CUSTOMER
  | INACTIVE
deriving DecidableEq, Repr

/-- The fields of `Customer` (`app/models/customer.py`) read or written by the
lifecycle, scoring and access-control code. -/
structure Customer where
  owner_id : Nat
  organizational_unit_id : Nat
  stage : CustomerStage
  suspect_date : Option Int
  prospect_date : Option Int
  lead_date : Option Int
  customer_date : Option Int
  email : Option String
  phone : Option String
  mobile : Option String
  estimated_assets : Option ℚ
  credit_score : Option Int
  last_contact_date : Option Int
deriving DecidableEq, Repr

/-- Python truthiness of a nullable string column. -/
def truthyStr : Option String → Bool
  | some s => s ≠ ""
  | none => false

/-- Python truthiness of a nullable numeric column. -/
def truthyRat : Option ℚ → Bool
  | some q => q ≠ 0
  | none => false

/-- `User.can_access_organizational_unit` from `app/models/user.py`.
`unit_db` is the set of unit ids present in the database, so that
`OrganizationalUnit.query.get(org_unit_id)` returns a row exactly when
`org_unit_id ∈ unit_db`; `target_unit in children` is the primary-key
membership test. -/
def can_access_organizational_unit (u : Subject) (unit_db : List Nat) (org_unit_id : Nat) : Bool :=
  if u.access_level = AccessLevel.EXECUTIVE then true
  else if u.organizational_unit.key = org_unit_id then true
  else if u.access_level = AccessLevel.REGIONAL ∨ u.access_level = AccessLevel.BRANCH then
    if org_unit_id ∈ unit_db then
      u.organizational_unit.get_all_children.any (fun c => c.key = org_unit_id)
    else false
  else false

/-- `User.can_access_customer` from `app/models/user.py`. -/
def can_access_customer (u : Subject) (unit_db : List Nat) (c : Customer) : Bool :=
  if u.access_level = AccessLevel.INDIVIDUAL then decide (c.owner_id = u.id)
  else can_access_organizational_unit u unit_db c.organizational_unit_id

/-- `AccessControl.can_view_customer` from `app/utils/access_control.py`. -/
def can_view_customer (u : Subject) (unit_db : List Nat) (c : Customer) : Bool :=
  if ¬ u.is_authenticated then false
  else can_access_customer u unit_db c

/-- `AccessControl.can_edit_customer` from `app/utils/access_control.py`. -/
def can_edit_customer (u : Subject) (unit_db : List Nat) (c : Customer) : Bool :=
  if ¬ u.is_authenticated then false
  else if u.access_level = AccessLevel.INDIVIDUAL then decide (c.owner_id = u.id)
  else can_access_organizational_unit u unit_db c.organizational_unit_id

/-- `AccessControl.can_delete_customer` from `app/utils/access_control.py`. -/
def can_delete_customer (u : Subject) (unit_db : List Nat) (c : Customer) : Bool :=
  if ¬ u.is_authenticated then false
  else if u.access_level = AccessLevel.INDIVIDUAL then false
  else can_access_organizational_unit u unit_db c.organizational_unit_id

/-- `AccessControl.can_reassign_customer` from `app/utils/access_control.py`. -/
def can_reassign_customer (u : Subject) (unit_db : List Nat) (c : Customer) : Bool :=
  if ¬ u.is_authenticated then false
  else if u.access_level = AccessLevel.INDIVIDUAL then false
  else can_access_organizational_unit u unit_db c.organizational_unit_id

/-- Deal pipeline stages from `OpportunityStage` in `app/models/opportunity.py`. -/
inductive OpportunityStage where
  | IDENTIFICATION
  | QUALIFICATION
  | PROPOSAL
  | NEGOTIATION
  | CLOSING
  | WON
  | LOST
  | POST_SALE
deriving DecidableEq, Repr

/-- Lost-deal reasons from `LostReason` in `app/models/opportunity.py`. -/
inductive LostReason where
  | PRICE
  | COMPETITOR
  | NO_RESPONSE
  | TIMING
  | NO_NEED
  | CREDIT_REJECTED
  | OTHER
deriving DecidableEq, Repr

/-- The fields of `Opportunity` (`app/models/opportunity.py`) read or written
by the pipeline lifecycle code. -/
structure Opportunity where
  stage : OpportunityStage
  amount : ℚ
  probability : Int
  expected_revenue : Option ℚ
  actual_revenue : Option ℚ
  is_active : Bool
  won_date : Option Int
  lost_date : Option Int
  actual_close_date : Option Int
  lost_reason : Option LostReason
  lost_notes : Option String
  competitor_name : Option String
deriving DecidableEq, Repr

/-- `Opportunity.update_expected_revenue`: the guard `if self.amount and
self.probability` is Python truthiness, so the recomputation happens only when
both are nonzero; `self.probability / 100` is true division. -/
def Opportunity.update_expected_revenue (o : Opportunity) : Opportunity :=
  if o.amount ≠ 0 ∧ o.probability ≠ 0 then
    { o with expected_revenue := some (o.amount * ((o.probability : ℚ) / 100)) }
  else o

/-- The fixed `stage_probabilities` table inside `Opportunity.advance_stage`;
`none` for stages absent from the dictionary (`POST_SALE`). -/
def stage_probability : OpportunityStage → Option Int
  | .IDENTIFICATION => some 10
  | .QUALIFICATION => some 20
  | .PROPOSAL => some 40
  | .NEGOTIATION => some 60
  | .CLOSING => some 80
  | .WON => some 100
  | .LOST => some 0
  | .POST_SALE => none

/-- `Opportunity.advance_stage` from `app/models/opportunity.py`: set the
stage; if the new stage is in the probability table, set the probability and
recompute expected revenue; entering WON or LOST additionally closes the deal. -/
def Opportunity.advance_stage (o : Opportunity) (new_stage : OpportunityStage) (now : Int) :
    Opportunity :=
  let o1 := { o with stage := new_stage }
  let o2 := match stage_probability new_stage with
    | some p => Opportunity.update_expected_revenue { o1 with probability := p }
    | none => o1
  if new_stage = OpportunityStage.WON then
    { o2 with is_active := false, won_date := some now, actual_close_date := some now,
              actual_revenue := some o2.amount }
  else if new_stage = OpportunityStage.LOST then
    { o2 with is_active := false, lost_date := some now, actual_close_date := some now }
  else o2

/-- `Opportunity.mark_won` from `app/models/opportunity.py`: the override
`if actual_revenue:` is Python truthiness, so `None` and `0` both leave the
value set by `advance_stage` in place. -/
def Opportunity.mark_won (o : Opportunity) (now : Int) (actual_revenue : Option ℚ) :
    Opportunity :=
  let o1 := Opportunity.advance_stage o OpportunityStage.WON now
  match actual_revenue with
  | some v => if v ≠ 0 then { o1 with actual_revenue := some v } else o1
  | none => o1

/-- `Opportunity.mark_lost` from `app/models/opportunity.py`. -/
def Opportunity.mark_lost (o : Opportunity) (now : Int) (reason : LostReason)
    (notes competitor : Option String) : Opportunity :=
  let o1 := Opportunity.advance_stage o OpportunityStage.LOST now
  { o1 with lost_reason := some reason, lost_notes := notes, competitor_name := competitor }

/-- The spec's Opportunity invariant: `isActive` is true iff the stage is not
WON and not LOST. -/
def Opportunity.invariant_active (o : Opportunity) : Prop :=
  o.is_active = true ↔ (o.stage ≠ OpportunityStage.WON ∧ o.stage ≠ OpportunityStage.LOST)

instance (o : Opportunity) : Decidable o.invariant_active := by
  unfold Opportunity.invariant_active; infer_instance

/-- `Customer.advance_stage` from `app/models/customer.py`: set the stage and
stamp the timestamp of the stage being entered (unconditionally). -/
def Customer.advance_stage (c : Customer) (new_stage : CustomerStage) (now : Int) : Customer :=
  let c1 := { c with stage := new_stage }
  if new_stage = CustomerStage.PROSPECT then { c1 with prospect_date := some now }
  else if new_stage = CustomerStage.LEAD then { c1 with lead_date := some now }
  else if new_stage = CustomerStage.CUSTOMER then { c1 with customer_date := some now }
  else c1

/-- `Customer.calculate_qualification_score` from `app/models/customer.py`.
`opportunities` is the customer's related opportunity rows; `now` is
`datetime.utcnow()` and date subtraction is in whole days. -/
def Customer.calculate_qualification_score (c : Customer) (opportunities : List Opportunity)
    (now : Int) : Int :=
  let score : Int := 0
  let score := if truthyStr c.email then score + 10 else score
  let score := if truthyStr c.mobile ∨ truthyStr c.phone then score + 10 else score
  let score := if truthyRat c.estimated_assets then score + 20 else score
  let score := match c.credit_score with
    | some cs => if cs ≠ 0 ∧ cs > 600 then score + 20 else score
    | none => score
  let score := match c.last_contact_date with
    | some d =>
        let days_since_contact := now - d
        if days_since_contact < 7 then score + 20
        else if days_since_contact < 30 then score + 10
        else score
    | none => score
  let score := if (opportunities.filter (fun o => o.is_active)).length > 0 then score + 20
    else score
  min score 100

/-- Task statuses from `TaskStatus` in `app/models/activity.py`. -/
inductive TaskStatus where
  | PENDING
  | IN_PROGRESS
  | COMPLETED
  | CANCELLED
  | OVERDUE
deriving DecidableEq, Repr

/-- The fields of `Task` (`app/models/activity.py`) read or written by the
overdue/completion lifecycle and by the task query filter. -/
structure CrmTask where
  status : TaskStatus
  assigned_to_id : Nat
  assigned_by_id : Nat
  due_date : Int
  is_overdue : Bool
  completed_date : Option Int
deriving DecidableEq, Repr

/-- `Task.check_overdue` from `app/models/activity.py`: returns the Python
return value paired with the (possibly updated) task. -/
def CrmTask.check_overdue (t : CrmTask) (now : Int) : Bool × CrmTask :=
  if t.status ≠ TaskStatus.COMPLETED ∧ t.status ≠ TaskStatus.CANCELLED then
    if t.due_date < now then
      (true, { t with is_overdue := true, status := TaskStatus.OVERDUE })
    else (false, t)
  else (false, t)

/-- `Task.complete` from `app/models/activity.py`: unconditional. -/
def CrmTask.complete (t : CrmTask) (now : Int) : CrmTask :=
  { t with status := TaskStatus.COMPLETED, completed_date := some now, is_overdue := false }


/-- The user fields read by the task scoping filter: a row of the `users`
table with its id and owning organizational unit. -/
structure UserRow where
  id : Nat
  organizational_unit_id : Nat
deriving DecidableEq, Repr

/-- `User.get_accessible_organizational_units` from `app/models/user.py`.
`all_units` is `OrganizationalUnit.query.all()`. -/
def get_accessible_organizational_units (u : Subject) (all_units : List OrgUnit) :
    List OrgUnit :=
  if u.access_level = AccessLevel.EXECUTIVE then all_units
  else
    u.organizational_unit ::
      (if u.access_level = AccessLevel.REGIONAL ∨ u.access_level = AccessLevel.BRANCH then
        u.organizational_unit.get_all_children
      else [])

/-- `apply_task_filter` from `app/utils/query_filters.py`, applied to the row
set `tasks`; `users` is the `users` table (for `unit.users.all()`). -/
def apply_task_filter (u : Subject) (all_units : List OrgUnit) (users : List UserRow)
    (tasks : List CrmTask) : List CrmTask :=
  if ¬ u.is_authenticated then tasks.filter (fun _ => false)
  else if u.access_level = AccessLevel.EXECUTIVE then tasks
  else if u.access_level = AccessLevel.INDIVIDUAL then
    tasks.filter (fun t => t.assigned_to_id = u.id ∨ t.assigned_by_id = u.id)
  else
    let accessible_units := get_accessible_organizational_units u all_units
    let accessible_user_ids := accessible_units.flatMap
      (fun unit => (users.filter (fun w => w.organizational_unit_id = unit.key)).map
        (fun w => w.id))
    tasks.filter
      (fun t => t.assigned_to_id ∈ accessible_user_ids ∨ t.assigned_by_id ∈ accessible_user_ids)

/-- The user-identity snapshot `AuditLog.log_action` denormalizes into an
entry. -/
structure SubjectInfo where
  id : Nat
  username : String
deriving DecidableEq, Repr

/-- The fields of `AuditLog` (`app/models/audit.py`) written by `log_action`
(request-context fields omitted: they are copied verbatim when a request is
present and do not affect the audited outcome). -/
structure AuditEntry where
  user_id : Option Nat
  username : String
  action : String
  resource_type : String
  resource_id : Option Nat
  description : Option String
  success : Bool
  error_message : Option String
deriving DecidableEq, Repr

/-- The entry built by `AuditLog.log_action` in `app/models/audit.py` before
it is persisted. -/
def AuditLog.log_action (user : Option SubjectInfo) (action resource_type : String)
    (resource_id : Option Nat) (description : Option String) (success : Bool)
    (error_message : Option String) : AuditEntry :=
  { user_id := user.map (fun w => w.id)
    username := match user with
      | some w => w.username
      | none => "anonymous"
    action := action
    resource_type := resource_type
    resource_id := resource_id
    description := description
    success := success
    error_message := error_message }

/-- The `audit_action` decorator from `app/utils/decorators.py`, applied to a
business action that has already run to a result `f` (`Except.error` models a
raised exception whose `str` is the payload).  `commit_ok` models whether
`db.session.commit()` inside `log_action` succeeds; a failed commit persists
nothing and is caught by the decorator's inner `except`.  Returns the value
the wrapped route produces (or re-raises) paired with the list of persisted
audit entries. -/
def audit_action {α : Type} (authenticated : Bool) (user : SubjectInfo) (commit_ok : Bool)
    (action resource_type : String) (resource_id : Option Nat) (f : Except String α) :
    Except String α × List AuditEntry :=
  let success := match f with
    | .ok _ => true
    | .error _ => false
  let error_message := match f with
    | .ok _ => none
    | .error e => some e
  let persisted :=
    if authenticated then
      if commit_ok then
        [AuditLog.log_action (some user) action resource_type resource_id
          (some (action ++ " " ++ resource_type)) success error_message]
      else []
    else []
  (f, persisted)

/-- The qualification-score total as the spec states it: a plain sum of the
six contributing components (before the final clamp to 100). -/
def qualification_components_sum (c : Customer) (opportunities : List Opportunity)
    (now : Int) : Int :=
  (if truthyStr c.email then 10 else 0)
  + (if truthyStr c.mobile ∨ truthyStr c.phone then 10 else 0)
  + (if truthyRat c.estimated_assets then 20 else 0)
  + (match c.credit_score with
      | some cs => if cs > 600 then 20 else 0
      | none => 0)
  + (match c.last_contact_date with
      | some d => if now - d < 7 then 20 else if now - d < 30 then 10 else 0
      | none => 0)
  + (if (opportunities.filter (fun o => o.is_active)).length > 0 then 20 else 0)

/-- A customer row with every optional field absent, used as the base of the
concrete test fixtures below. -/
def baseCustomer : Customer :=
  { owner_id := 0, organizational_unit_id := 0, stage := CustomerStage.SUSPECT,
    suspect_date := none, prospect_date := none, lead_date := none, customer_date := none,
    email := none, phone := none, mobile := none, estimated_assets := none,
    credit_score := none, last_contact_date := none }

/-- An opportunity row in its initial pipeline state, used as the base of the
concrete test fixtures below. -/
def baseOpportunity : Opportunity :=
  { stage := OpportunityStage.IDENTIFICATION, amount := 0, probability := 10,
    expected_revenue := none, actual_revenue := none, is_active := true,
    won_date := none, lost_date := none, actual_close_date := none,
    lost_reason := none, lost_notes := none, competitor_name := none }

/-- A pending task row, used as the base of the concrete test fixtures below. -/
def baseTask : CrmTask :=
  { status := TaskStatus.PENDING, assigned_to_id := 0, assigned_by_id := 0,
    due_date := 0, is_overdue := false, completed_date := none }

/-- A concrete organizational subtree: unit 1 with child 2 (which has child 4)
and child 3. -/
def unitFixture : OrgUnit :=
  OrgUnit.node 1 [OrgUnit.node 2 [OrgUnit.node 4 []], OrgUnit.node 3 []]

/-- A BRANCH-level authenticated subject whose unit is `unitFixture`. -/
def branchSubject : Subject :=
  { id := 9, access_level := AccessLevel.BRANCH, organizational_unit := unitFixture,
    is_authenticated := true }

/-- An INDIVIDUAL-level authenticated subject in unit 3. -/
def individualSubject : Subject :=
  { id := 7, access_level := AccessLevel.INDIVIDUAL,
    organizational_unit := OrgUnit.node 3 [], is_authenticated := true }

theorem getAllChildrenList_map_key (cs : List OrgUnit) :
    (getAllChildrenList cs).map OrgUnit.key = subtreeIdsList cs := by
  induction cs using getAllChildrenList.induct with
  | case1 => simp [getAllChildrenList, subtreeIdsList]
  | case2 i cs rest ih1 ih2 =>
      simp [getAllChildrenList, subtreeIdsList, List.map_append, ih1, ih2, OrgUnit.key]

theorem mem_subtreeIdsList (j : Nat) (cs : List OrgUnit) :
    j ∈ subtreeIdsList cs ↔ ∃ c ∈ cs, j ∈ c.subtree_ids := by
  induction cs with
  | nil => simp [subtreeIdsList]
  | cons c rest ih =>
      obtain ⟨i, cs1⟩ := c
      simp [subtreeIdsList, OrgUnit.subtree_ids, OrgUnit.key, OrgUnit.children, ih,
        List.mem_append, or_assoc]

theorem mem_map_key_get_all_children (t : OrgUnit) (j : Nat) :
    (∃ c ∈ t.get_all_children, c.key = j) ↔ isDescendantOf j t := by
  rw [isDescendantOf, ← mem_subtreeIdsList, ← getAllChildrenList_map_key]
  simp [OrgUnit.get_all_children, List.mem_map]

/-- C1: for an authenticated user whose access level is REGIONAL or BRANCH,
viewing a customer record owned by organizational unit `U` is allowed exactly
when `U` is the user's own unit or a strict descendant of the user's unit in
the organizational-unit tree (assuming every unit of the user's subtree is
present in the database working set, as the `children` relationship
guarantees). -/
theorem view_allowed_iff_unit_or_descendant
    (u : Subject) (unit_db : List Nat) (c : Customer)
    (hauth : u.is_authenticated = true)
    (hlvl : u.access_level = AccessLevel.REGIONAL ∨ u.access_level = AccessLevel.BRANCH)
    (hdb : ∀ j ∈ subtreeIdsList u.organizational_unit.children, j ∈ unit_db) :
    can_view_customer u unit_db c = true ↔
      (c.organizational_unit_id = u.organizational_unit.key ∨
        isDescendantOf c.organizational_unit_id u.organizational_unit) := by
  have hexec : ¬ u.access_level = AccessLevel.EXECUTIVE := by
    rcases hlvl with h | h <;> simp [h]
  have hind : ¬ u.access_level = AccessLevel.INDIVIDUAL := by
    rcases hlvl with h | h <;> simp [h]
  rw [can_view_customer, can_access_customer, can_access_organizational_unit]
  rw [if_neg (by simp [hauth]), if_neg hind, if_neg hexec]
  by_cases hU : u.organizational_unit.key = c.organizational_unit_id
  · rw [if_pos hU]
    simp [← hU]
  · rw [if_neg hU, if_pos hlvl]
    by_cases hmem : c.organizational_unit_id ∈ unit_db
    · rw [if_pos hmem]
      simp only [List.any_eq_true, decide_eq_true_eq]
      rw [mem_map_key_get_all_children]
      constructor
      · exact Or.inr
      · rintro (h | h)
        · exact absurd h.symm hU
        · exact h
    · rw [if_neg hmem]
      constructor
      · intro h
        exact absurd h (by simp)
      · rintro (h | h)
        · exact absurd h.symm hU
        · exact absurd (hdb _ ((mem_subtreeIdsList _ _).mpr h)) hmem

/-- C1 witness: the BRANCH-level subject of unit 1 may view a customer sitting
in unit 4, a grandchild of unit 1. -/
theorem view_allowed_iff_unit_or_descendant_witness :
    can_view_customer branchSubject [1, 2, 3, 4]
      { baseCustomer with organizational_unit_id := 4 } = true :=
  (view_allowed_iff_unit_or_descendant branchSubject [1, 2, 3, 4]
      { baseCustomer with organizational_unit_id := 4 }
      rfl (Or.inr rfl)
      (by simp [branchSubject, unitFixture, OrgUnit.children, subtreeIdsList,
        OrgUnit.key])).mpr
    (Or.inr ⟨OrgUnit.node 2 [OrgUnit.node 4 []],
      by simp [branchSubject, unitFixture, OrgUnit.children],
      by simp [OrgUnit.subtree_ids, subtreeIdsList, OrgUnit.children, OrgUnit.key]⟩)

/-- C2: for an authenticated INDIVIDUAL-level user, viewing and editing a
customer are allowed exactly when the user owns it, and deleting and
reassigning are denied unconditionally. -/
theorem individual_customer_capabilities
    (u : Subject) (unit_db : List Nat) (c : Customer)
    (hauth : u.is_authenticated = true)
    (hlvl : u.access_level = AccessLevel.INDIVIDUAL) :
    (can_view_customer u unit_db c = true ↔ c.owner_id = u.id)
    ∧ (can_edit_customer u unit_db c = true ↔ c.owner_id = u.id)
    ∧ can_delete_customer u unit_db c = false
    ∧ can_reassign_customer u unit_db c = false := by
  simp [can_view_customer, can_edit_customer, can_delete_customer, can_reassign_customer,
    can_access_customer, hauth, hlvl]

/-- C2 witness: the INDIVIDUAL subject (id 7) may view and edit the customer
it owns, and may not delete or reassign it. -/
theorem individual_customer_capabilities_witness :
    can_view_customer individualSubject [3] { baseCustomer with owner_id := 7 } = true
    ∧ can_delete_customer individualSubject [3] { baseCustomer with owner_id := 7 } = false :=
  ⟨(individual_customer_capabilities individualSubject [3]
      { baseCustomer with owner_id := 7 } (by decide) rfl).1.mpr rfl,
    (individual_customer_capabilities individualSubject [3]
      { baseCustomer with owner_id := 7 } (by decide) rfl).2.2.1⟩

theorem update_expected_revenue_probability (o : Opportunity) :
    o.update_expected_revenue.probability = o.probability := by
  rw [Opportunity.update_expected_revenue]
  split <;> rfl

theorem update_expected_revenue_amount (o : Opportunity) :
    o.update_expected_revenue.amount = o.amount := by
  rw [Opportunity.update_expected_revenue]
  split <;> rfl

theorem update_expected_revenue_stage (o : Opportunity) :
    o.update_expected_revenue.stage = o.stage := by
  rw [Opportunity.update_expected_revenue]
  split <;> rfl

theorem update_expected_revenue_is_active (o : Opportunity) :
    o.update_expected_revenue.is_active = o.is_active := by
  rw [Opportunity.update_expected_revenue]
  split <;> rfl

theorem update_expected_revenue_actual (o : Opportunity) :
    o.update_expected_revenue.actual_revenue = o.actual_revenue := by
  rw [Opportunity.update_expected_revenue]
  split <;> rfl

theorem update_expected_revenue_run (o : Opportunity)
    (ha : o.amount ≠ 0) (hp : o.probability ≠ 0) :
    o.update_expected_revenue.expected_revenue
      = some (o.amount * ((o.probability : ℚ) / 100)) := by
  rw [Opportunity.update_expected_revenue, if_pos ⟨ha, hp⟩]

theorem update_expected_revenue_skip (o : Opportunity)
    (h : o.amount = 0 ∨ o.probability = 0) :
    o.update_expected_revenue.expected_revenue = o.expected_revenue := by
  rw [Opportunity.update_expected_revenue, if_neg (by tauto)]

theorem advance_stage_stage (o : Opportunity) (S : OpportunityStage) (now : Int) :
    (o.advance_stage S now).stage = S := by
  cases S <;>
    simp [Opportunity.advance_stage, stage_probability, update_expected_revenue_stage]

theorem advance_stage_probability_eq (o : Opportunity) (S : OpportunityStage) (p now : Int)
    (hp : stage_probability S = some p) :
    (o.advance_stage S now).probability = p := by
  cases S <;> simp [stage_probability] at hp <;> subst hp <;>
    simp [Opportunity.advance_stage, stage_probability, update_expected_revenue_probability]

theorem advance_stage_amount (o : Opportunity) (S : OpportunityStage) (now : Int) :
    (o.advance_stage S now).amount = o.amount := by
  cases S <;>
    simp [Opportunity.advance_stage, stage_probability, update_expected_revenue_amount]

theorem advance_stage_is_active (o : Opportunity) (S : OpportunityStage) (now : Int) :
    (o.advance_stage S now).is_active =
      if S = OpportunityStage.WON ∨ S = OpportunityStage.LOST then false else o.is_active := by
  cases S <;>
    simp [Opportunity.advance_stage, stage_probability, update_expected_revenue_is_active]

theorem advance_stage_expected_run (o : Opportunity) (S : OpportunityStage) (p now : Int)
    (hp : stage_probability S = some p) (ha : o.amount ≠ 0) (hpz : p ≠ 0) :
    (o.advance_stage S now).expected_revenue = some (o.amount * ((p : ℚ) / 100)) := by
  cases S <;> simp [stage_probability] at hp <;> subst hp <;>
    first
    | exact absurd rfl hpz
    | simp [Opportunity.advance_stage, stage_probability, update_expected_revenue_run, ha]

theorem advance_stage_expected_skip (o : Opportunity) (S : OpportunityStage) (p now : Int)
    (hp : stage_probability S = some p) (h : o.amount = 0 ∨ p = 0) :
    (o.advance_stage S now).expected_revenue = o.expected_revenue := by
  cases S <;> simp [stage_probability] at hp <;> subst hp <;>
    simp [Opportunity.advance_stage, stage_probability] <;>
    rw [update_expected_revenue_skip _ (by rcases h with h | h <;> simp_all)]

theorem advance_stage_won_actual (o : Opportunity) (now : Int) :
    (o.advance_stage OpportunityStage.WON now).actual_revenue = some o.amount := by
  simp [Opportunity.advance_stage, stage_probability, update_expected_revenue_amount]

theorem mark_won_stage (o : Opportunity) (now : Int) (rv : Option ℚ) :
    (o.mark_won now rv).stage = OpportunityStage.WON := by
  rw [Opportunity.mark_won.eq_def]
  cases rv with
  | none => simp [advance_stage_stage]
  | some v =>
      dsimp only
      split <;> simp [advance_stage_stage]

theorem mark_won_is_active (o : Opportunity) (now : Int) (rv : Option ℚ) :
    (o.mark_won now rv).is_active = false := by
  rw [Opportunity.mark_won.eq_def]
  cases rv with
  | none => simp [advance_stage_is_active]
  | some v =>
      dsimp only
      split <;> simp [advance_stage_is_active]

theorem mark_lost_stage (o : Opportunity) (now : Int) (r : LostReason)
    (notes competitor : Option String) :
    (o.mark_lost now r notes competitor).stage = OpportunityStage.LOST := by
  simp [Opportunity.mark_lost, advance_stage_stage]

theorem mark_lost_is_active (o : Opportunity) (now : Int) (r : LostReason)
    (notes competitor : Option String) :
    (o.mark_lost now r notes competitor).is_active = false := by
  simp [Opportunity.mark_lost, advance_stage_is_active]

/-- C3 counterexample: on an opportunity with amount 100 and stale expected
revenue 60, advancing to LOST sets probability 0 from the table but the
truthiness guard in `update_expected_revenue` skips the recomputation, so the
expected revenue stays 60 instead of `amount * 0 / 100 = 0`. -/
theorem advance_stage_lost_stale_expected_revenue :
    (Opportunity.advance_stage
        { baseOpportunity with
          amount := 100, probability := 60,
          expected_revenue := some 60, stage := OpportunityStage.NEGOTIATION }
        OpportunityStage.LOST 0).probability = 0
    ∧ (Opportunity.advance_stage
        { baseOpportunity with
          amount := 100, probability := 60,
          expected_revenue := some 60, stage := OpportunityStage.NEGOTIATION }
        OpportunityStage.LOST 0).expected_revenue
        ≠ some ((100 : ℚ) * 0 / 100) := by
  refine ⟨advance_stage_probability_eq _ _ _ _ rfl, ?_⟩
  rw [advance_stage_expected_skip _ OpportunityStage.LOST 0 _ rfl (Or.inr rfl)]
  norm_num

/-- C3 (amended): for every stage `S` in the fixed probability table,
`advance_stage` sets `probability = table[S]`; the expected revenue is
recomputed to `amount * table[S] / 100` only when both `amount` and
`table[S]` are nonzero — when `amount = 0` or `table[S] = 0` (the LOST row)
the expected revenue keeps its previous value instead. -/
theorem advance_stage_table_updates (o : Opportunity) (S : OpportunityStage) (p now : Int)
    (hp : stage_probability S = some p) :
    (o.advance_stage S now).probability = p
    ∧ (o.amount ≠ 0 → p ≠ 0 →
        (o.advance_stage S now).expected_revenue = some (o.amount * p / 100))
    ∧ (o.amount = 0 ∨ p = 0 →
        (o.advance_stage S now).expected_revenue = o.expected_revenue) := by
  refine ⟨advance_stage_probability_eq o S p now hp, ?_, advance_stage_expected_skip o S p now hp⟩
  intro ha hpz
  rw [advance_stage_expected_run o S p now hp ha hpz, mul_div_assoc]

/-- C3 witness: the spec's own scenario — amount 150000, advancing to CLOSING
gives probability 80 and expected revenue 120000. -/
theorem advance_stage_table_updates_witness :
    (Opportunity.advance_stage { baseOpportunity with amount := 150000, probability := 60 }
        OpportunityStage.CLOSING 7).probability = 80
    ∧ (Opportunity.advance_stage { baseOpportunity with amount := 150000, probability := 60 }
        OpportunityStage.CLOSING 7).expected_revenue = some 120000 := by
  obtain ⟨h1, h2, h3⟩ := advance_stage_table_updates
    { baseOpportunity with amount := 150000, probability := 60 }
    OpportunityStage.CLOSING 80 7 rfl
  refine ⟨h1, ?_⟩
  rw [h2 (by norm_num) (by norm_num)]
  norm_num

/-- C4 counterexample: an opportunity in stage WON with `is_active = false`
satisfies the invariant, but advancing it to POST_SALE leaves `is_active`
false while the stage is no longer terminal, so the invariant breaks. -/
theorem advance_stage_post_sale_breaks_invariant :
    Opportunity.invariant_active
      { baseOpportunity with stage := OpportunityStage.WON, is_active := false }
    ∧ ¬ Opportunity.invariant_active
      (Opportunity.advance_stage
        { baseOpportunity with stage := OpportunityStage.WON, is_active := false }
        OpportunityStage.POST_SALE 1) := by
  constructor
  · simp [Opportunity.invariant_active]
  · simp [Opportunity.invariant_active, Opportunity.advance_stage, stage_probability]

/-- C4 (amended): the invariant `is_active = true ↔ stage ∉ {WON, LOST}` is
preserved by `advance_stage` from any state whose stage is not already
terminal, and is (re)established unconditionally by `mark_won` and
`mark_lost`; from a terminal state, `advance_stage` to a non-terminal stage
breaks it because `is_active` is never reset to true. -/
theorem lifecycle_preserves_active_invariant (o : Opportunity) (S : OpportunityStage)
    (now : Int) (rv : Option ℚ) (r : LostReason) (notes competitor : Option String)
    (h : Opportunity.invariant_active o) :
    (o.stage ≠ OpportunityStage.WON → o.stage ≠ OpportunityStage.LOST →
      Opportunity.invariant_active (o.advance_stage S now))
    ∧ Opportunity.invariant_active (o.mark_won now rv)
    ∧ Opportunity.invariant_active (o.mark_lost now r notes competitor) := by
  refine ⟨?_, ?_, ?_⟩
  · intro h1 h2
    have hact : o.is_active = true := h.mpr ⟨h1, h2⟩
    rw [Opportunity.invariant_active, advance_stage_stage, advance_stage_is_active]
    by_cases hS : S = OpportunityStage.WON ∨ S = OpportunityStage.LOST
    · simp only [if_pos hS]
      constructor
      · intro hfalse
        exact absurd hfalse (by simp)
      · rintro ⟨hw, hl⟩
        rcases hS with hS | hS <;> simp_all
    · simp only [if_neg hS]
      push_neg at hS
      simp [hact, hS]
  · rw [Opportunity.invariant_active, mark_won_stage, mark_won_is_active]
    simp
  · rw [Opportunity.invariant_active, mark_lost_stage, mark_lost_is_active]
    simp

/-- C4 witness: advancing an active CLOSING-stage opportunity to WON keeps the
invariant. -/
theorem lifecycle_preserves_active_invariant_witness :
    Opportunity.invariant_active
      (Opportunity.advance_stage { baseOpportunity with stage := OpportunityStage.CLOSING }
        OpportunityStage.WON 3) :=
  (lifecycle_preserves_active_invariant
      { baseOpportunity with stage := OpportunityStage.CLOSING }
      OpportunityStage.WON 3 none LostReason.PRICE none none
      (by simp [Opportunity.invariant_active, baseOpportunity])).1
    (by simp [baseOpportunity]) (by simp [baseOpportunity])

/-- C8 counterexample: calling `mark_won` with an explicit actual revenue of 0
does not record 0 — the truthiness guard drops it and the amount (5) wins. -/
theorem mark_won_zero_override_ignored :
    (Opportunity.mark_won { baseOpportunity with amount := 5 } 0 (some 0)).actual_revenue
      ≠ some 0 := by
  rw [Opportunity.mark_won.eq_def]
  simp [advance_stage_won_actual]

/-- C8 (amended): `mark_won` with no explicit actual revenue sets
`actual_revenue = amount`; an explicit nonzero value `v` overrides it to `v`;
but an explicit 0 is discarded by the truthiness guard and `actual_revenue`
stays equal to `amount`. -/
theorem mark_won_actual_revenue (o : Opportunity) (now : Int) (v : ℚ) :
    (o.mark_won now none).actual_revenue = some o.amount
    ∧ (v ≠ 0 → (o.mark_won now (some v)).actual_revenue = some v)
    ∧ (o.mark_won now (some 0)).actual_revenue = some o.amount := by
  refine ⟨?_, ?_, ?_⟩
  · rw [Opportunity.mark_won.eq_def]
    simp [advance_stage_won_actual]
  · intro hv
    rw [Opportunity.mark_won.eq_def]
    simp [hv]
  · rw [Opportunity.mark_won.eq_def]
    simp [advance_stage_won_actual]

/-- C8 witness: with amount 5, `mark_won` with no override records 5, and an
explicit override of 7 records 7. -/
theorem mark_won_actual_revenue_witness :
    (Opportunity.mark_won { baseOpportunity with amount := 5 } 0 none).actual_revenue = some 5
    ∧ (Opportunity.mark_won { baseOpportunity with amount := 5 } 0 (some 7)).actual_revenue
        = some 7 :=
  ⟨(mark_won_actual_revenue { baseOpportunity with amount := 5 } 0 7).1,
    (mark_won_actual_revenue { baseOpportunity with amount := 5 } 0 7).2.1 (by norm_num)⟩

/-- C5 counterexample: a customer whose prospect timestamp is already set (at
instant 0) gets it overwritten to instant 1 when advancing to PROSPECT again —
the timestamp is written unconditionally, not only when unset. -/
theorem advance_stage_overwrites_prospect_date :
    ({ baseCustomer with prospect_date := some 0 } : Customer).prospect_date = some 0
    ∧ (Customer.advance_stage { baseCustomer with prospect_date := some 0 }
        CustomerStage.PROSPECT 1).prospect_date ≠ some 0 := by
  constructor
  · rfl
  · simp [Customer.advance_stage]

/-- C5 (amended): `Customer.advance_stage` stamps the timestamp of the stage
being entered unconditionally (overwriting any earlier value for that same
stage) and leaves every other stage timestamp unchanged; in particular no
transition clears a timestamp. -/
theorem customer_advance_stage_timestamps (c : Customer) (S : CustomerStage) (now : Int) :
    (Customer.advance_stage c S now).suspect_date = c.suspect_date
    ∧ (S = CustomerStage.PROSPECT →
        (Customer.advance_stage c S now).prospect_date = some now)
    ∧ (S ≠ CustomerStage.PROSPECT →
        (Customer.advance_stage c S now).prospect_date = c.prospect_date)
    ∧ (S = CustomerStage.LEAD → (Customer.advance_stage c S now).lead_date = some now)
    ∧ (S ≠ CustomerStage.LEAD → (Customer.advance_stage c S now).lead_date = c.lead_date)
    ∧ (S = CustomerStage.CUSTOMER →
        (Customer.advance_stage c S now).customer_date = some now)
    ∧ (S ≠ CustomerStage.CUSTOMER →
        (Customer.advance_stage c S now).customer_date = c.customer_date) := by
  cases S <;> refine ⟨?_, ?_, ?_, ?_, ?_, ?_, ?_⟩ <;> simp [Customer.advance_stage]

/-- C5 witness: advancing to LEAD at instant 4 stamps the lead timestamp and
leaves the already-set prospect timestamp untouched. -/
theorem customer_advance_stage_timestamps_witness :
    (Customer.advance_stage { baseCustomer with prospect_date := some 0 }
        CustomerStage.LEAD 4).lead_date = some 4
    ∧ (Customer.advance_stage { baseCustomer with prospect_date := some 0 }
        CustomerStage.LEAD 4).prospect_date = some 0 :=
  ⟨(customer_advance_stage_timestamps { baseCustomer with prospect_date := some 0 }
      CustomerStage.LEAD 4).2.2.2.1 rfl,
    (customer_advance_stage_timestamps { baseCustomer with prospect_date := some 0 }
      CustomerStage.LEAD 4).2.2.1 (by decide)⟩

/-- C6 counterexample: `complete` on a CANCELLED task silently transitions its
status to COMPLETED instead of leaving it unchanged or rejecting the call. -/
theorem complete_transitions_cancelled_task :
    ({ baseTask with status := TaskStatus.CANCELLED } : CrmTask).status = TaskStatus.CANCELLED
    ∧ (CrmTask.complete { baseTask with status := TaskStatus.CANCELLED } 0).status
        ≠ TaskStatus.CANCELLED := by
  decide

/-- C6 (amended): on a task in a terminal status (COMPLETED or CANCELLED),
`check_overdue` returns false and leaves the task completely unchanged, and
`complete` always sets the status to COMPLETED — a status no-op for a
COMPLETED task, but a silent (unrejected) transition for a CANCELLED one. -/
theorem terminal_task_lifecycle (t : CrmTask) (now : Int)
    (h : t.status = TaskStatus.COMPLETED ∨ t.status = TaskStatus.CANCELLED) :
    t.check_overdue now = (false, t)
    ∧ (t.complete now).status = TaskStatus.COMPLETED := by
  constructor
  · rw [CrmTask.check_overdue, if_neg (by tauto)]
  · rfl

/-- C6 witness: a COMPLETED task is untouched by `check_overdue` and keeps
status COMPLETED under `complete`. -/
theorem terminal_task_lifecycle_witness :
    CrmTask.check_overdue { baseTask with status := TaskStatus.COMPLETED } 5
      = (false, { baseTask with status := TaskStatus.COMPLETED })
    ∧ (CrmTask.complete { baseTask with status := TaskStatus.COMPLETED } 5).status
        = TaskStatus.COMPLETED :=
  terminal_task_lifecycle { baseTask with status := TaskStatus.COMPLETED } 5 (Or.inl rfl)

/-- C7: wrapping a failing action with `audit_action` (authenticated subject,
nonempty error text) persists exactly one audit entry, with `success = false`
and the captured nonempty error message, when the audit commit succeeds; the
original error always propagates unchanged, and a failing audit commit is
absorbed — the wrapped outcome is identical and merely no entry is persisted. -/
theorem audit_action_failure_behaviour {α : Type} (user : SubjectInfo) (commit_ok : Bool)
    (action rt : String) (rid : Option Nat) (msg : String) (hmsg : msg ≠ "") :
    (audit_action true user commit_ok action rt rid
        (Except.error msg : Except String α)).1 = Except.error msg
    ∧ (commit_ok = true →
        ∃ e, (audit_action true user commit_ok action rt rid
            (Except.error msg : Except String α)).2 = [e]
          ∧ e.success = false ∧ e.error_message = some msg ∧ e.error_message ≠ some "")
    ∧ (commit_ok = false →
        (audit_action true user commit_ok action rt rid
          (Except.error msg : Except String α)).2 = []) := by
  refine ⟨rfl, ?_, ?_⟩
  · intro hc
    subst hc
    exact ⟨_, rfl, rfl, rfl, by simp [audit_action, AuditLog.log_action, hmsg]⟩
  · intro hc
    subst hc
    rfl

/-- C7 witness: a failing "update customer" action audited with a working
commit: the error propagates and one failure entry is persisted. -/
theorem audit_action_failure_behaviour_witness :
    (audit_action true { id := 1, username := "u" } true "update" "customer" none
      (Except.error "boom" : Except String Unit)).1 = Except.error "boom"
    ∧ (audit_action true { id := 1, username := "u" } true "update" "customer" none
        (Except.error "boom" : Except String Unit)).2.length = 1 := by
  obtain ⟨h1, h2, h3⟩ := audit_action_failure_behaviour (α := Unit)
    { id := 1, username := "u" } true "update" "customer" none "boom" (by decide)
  obtain ⟨e, he, _⟩ := h2 rfl
  exact ⟨h1, by rw [he]; rfl⟩

/-- C9: for an authenticated INDIVIDUAL-level user, the bulk task filter
returns exactly the tasks assigned to the user or created (assigned) by the
user. -/
theorem individual_task_scope (u : Subject) (all_units : List OrgUnit)
    (users : List UserRow) (tasks : List CrmTask) (t : CrmTask)
    (hauth : u.is_authenticated = true) (hlvl : u.access_level = AccessLevel.INDIVIDUAL) :
    t ∈ apply_task_filter u all_units users tasks
      ↔ t ∈ tasks ∧ (t.assigned_to_id = u.id ∨ t.assigned_by_id = u.id) := by
  simp [apply_task_filter, hauth, hlvl, List.mem_filter]

/-- C9 witness: the INDIVIDUAL subject (id 7) sees a task assigned to them. -/
theorem individual_task_scope_witness :
    ({ baseTask with assigned_to_id := 7 } : CrmTask)
      ∈ apply_task_filter individualSubject [] [] [{ baseTask with assigned_to_id := 7 }] :=
  (individual_task_scope individualSubject [] [] [{ baseTask with assigned_to_id := 7 }]
      { baseTask with assigned_to_id := 7 } rfl rfl).mpr ⟨by simp, Or.inl rfl⟩

set_option maxHeartbeats 1600000 in
/-- C10: the qualification score equals the spec's six-component sum clamped
to 100, and always lies in [0, 100]. -/
theorem qualification_score_spec (c : Customer) (opportunities : List Opportunity)
    (now : Int) :
    Customer.calculate_qualification_score c opportunities now
      = min (qualification_components_sum c opportunities now) 100
    ∧ 0 ≤ Customer.calculate_qualification_score c opportunities now
    ∧ Customer.calculate_qualification_score c opportunities now ≤ 100 := by
  simp only [Customer.calculate_qualification_score, qualification_components_sum]
  cases hcs : c.credit_score <;> cases hlc : c.last_contact_date <;>
    dsimp only <;> split_ifs <;> omega

